import Mathlib

/-!
Verification development for the Meshtastic Weather Alerts system.

The repository holds three variants of the same application:
`config_init.py` (configuration handling, transport resolution, and a
self-contained fetch/broadcast/main), `message_processing.py` (a
fetch/format/broadcast/main variant), and `server.py` (another
fetch/broadcast/main variant).  Each Python function is embedded as an
executable Lean definition; external effects (HTTP responses, transport
sends, interrupts) are supplied through explicit environments, and
observable actions (log lines, prints, sends, sleeps, close) are recorded
as event traces.  Unbounded `while True` loops are embedded with an
explicit fuel argument: a `none` / `false` result means the loop was still
running when the fuel ran out.
-/

namespace MeshtasticWeather

/-- Observable actions performed by the program: `logging` calls, `print`
calls, `interface.sendText` / `send_message` calls (with an optional
explicit destination node number), `time.sleep` calls (seconds), and
`interface.close()`. -/
inductive Ev where
  | log (msg : String)
  | printEv (msg : String)
  | sendText (msg : String) (dest : Option Nat)
  | sleepEv (secs : Nat)
  | closeEv
deriving Repr, DecidableEq

/-- `meshtastic.BROADCAST_NUM`, the broadcast destination address. -/
def BROADCAST_NUM : Nat := 4294967295

/-- The `properties` object of one feed feature; each field is absent
(`none`) or a string. -/
structure Properties where
  event : Option String
  headline : Option String
  description : Option String
  instruction : Option String
deriving Repr, DecidableEq

/-- An empty `properties` dict (`{}`), the default of `feature.get('properties', {})`. -/
def Properties.empty : Properties := ⟨none, none, none, none⟩

/-- One element of the feed's `features` array; the `properties` key may be
absent. -/
structure Alert where
  properties : Option Properties
deriving Repr, DecidableEq

/-- An HTTP response from the feed: status code, body text, and the
`features` key of the decoded JSON body (absent when the body has no such
key, e.g. for the empty dict). -/
structure HttpResponse where
  status : Nat
  text : String
  features : Option (List Alert)
deriving Repr, DecidableEq

/-! ## Python dict model

Configuration travels as a Python `dict[str, Any]`.  It is embedded as an
association list; a value is Python `None`, a string, or the opaque
`ConfigParser` object stored under the `'config'` key.  Lookup of a
missing key is `none` (a `KeyError` in Python). -/

/-- A Python value stored in the configuration dict. -/
inductive PyVal where
  | none
  | str (s : String)
  | configObj
deriving Repr, DecidableEq

/-- Python truthiness of a configuration value: `None` and `""` are falsy. -/
def PyVal.isTruthy : PyVal → Bool
  | .none => false
  | .str s => s ≠ ""
  | .configObj => true

/-- `str()` of a configuration value. -/
def PyVal.pyStr : PyVal → String
  | .none => "None"
  | .str s => s
  | .configObj => "<configparser.ConfigParser object>"

/-- A Python dict with string keys, as an association list (first
occurrence wins, as the builders below never duplicate keys). -/
def PyDict := List (String × PyVal)

/-- `d[k]` without raising: `none` models a `KeyError`. -/
def dictGet : PyDict → String → Option PyVal
  | [], _ => Option.none
  | (k', v) :: rest, k => if k' == k then some v else dictGet rest k

/-- `d[k] = v`: overwrite the first occurrence of `k`, or append. -/
def dictSet : PyDict → String → PyVal → PyDict
  | [], k, v => [(k, v)]
  | (k', v') :: rest, k, v =>
    if k' == k then (k, v) :: rest else (k', v') :: dictSet rest k v

/-- Python exceptions that the embedded code raises or catches. -/
inductive PyErr where
  | permissionError (msg : String)
  | valueError (msg : String)
  | otherError (msg : String)
  | keyError (k : String)
deriving Repr, DecidableEq

/-- `d[k]` raising `KeyError` when the key is missing. -/
def pyGet (d : PyDict) (k : String) : Except PyErr PyVal :=
  match dictGet d k with
  | some v => Except.ok v
  | Option.none => Except.error (PyErr.keyError k)

namespace ConfigInit

/-- The values the `[interface]` / `[weather]` sections of the parsed
config file provide (each `none` when the option is absent). -/
structure ConfigFile where
  iface_type : Option String
  hostname : Option String
  port : Option String
  location : Option String
deriving Repr, DecidableEq

/-- Lift an optional file value into the dict value it is stored as. -/
def optVal : Option String → PyVal
  | Option.none => PyVal.none
  | some s => PyVal.str s

/-- `config_init.initialize_config`: builds the system-configuration dict
from the parsed config file (the `config` key holds the parser object). -/
def initialize_config (f : ConfigFile) : PyDict :=
  [("config", PyVal.configObj),
   ("interface_type", optVal f.iface_type),
   ("hostname", optVal f.hostname),
   ("port", optVal f.port),
   ("location", optVal f.location)]

/-- The parsed CLI arguments (`argparse` namespace): each is `none` when
the flag was not supplied. -/
structure Args where
  config : Option String
  interface_type : Option String
  port : Option String
  host : Option String
  location : Option String
deriving Repr, DecidableEq

/-- `config_init.merge_config`: CLI arguments that were supplied overwrite
the corresponding dict entries (`interface_type`, `port`, `host`,
`location`). -/
def merge_config (system_config : PyDict) (args : Args) : PyDict :=
  let d := match args.interface_type with
    | some v => dictSet system_config "interface_type" (PyVal.str v)
    | Option.none => system_config
  let d := match args.port with
    | some v => dictSet d "port" (PyVal.str v)
    | Option.none => d
  let d := match args.host with
    | some v => dictSet d "host" (PyVal.str v)
    | Option.none => d
  match args.location with
  | some v => dictSet d "location" (PyVal.str v)
  | Option.none => d

/-- An opened meshtastic interface, recording which transport it is bound
to (`SerialInterface(port)` or `TCPInterface(hostname=...)`). -/
inductive Interface where
  | serial (port : String)
  | tcp (hostname : String)
deriving Repr, DecidableEq

/-- How one constructor call on the underlying transport fails: a
`PermissionError` or some other exception. -/
inductive OpenFail where
  | perm (msg : String)
  | oth (msg : String)
deriving Repr, DecidableEq

/-- Environment of `get_interface`: the serial ports
`serial.tools.list_ports.comports()` reports, and the outcome of the n-th
transport-constructor call (`none` = the open succeeds). -/
structure IfaceEnv where
  ports : List String
  openFail : Nat → Option OpenFail

/-- `meshtastic.serial_interface.SerialInterface(port)` at the given
attempt index. -/
def IfaceEnv.openSerial (env : IfaceEnv) (attempt : Nat) (p : String) :
    Except PyErr Interface :=
  match env.openFail attempt with
  | Option.none => Except.ok (Interface.serial p)
  | some (OpenFail.perm m) => Except.error (PyErr.permissionError m)
  | some (OpenFail.oth m) => Except.error (PyErr.otherError m)

/-- `meshtastic.tcp_interface.TCPInterface(hostname=h)` at the given
attempt index. -/
def IfaceEnv.openTCP (env : IfaceEnv) (attempt : Nat) (h : String) :
    Except PyErr Interface :=
  match env.openFail attempt with
  | Option.none => Except.ok (Interface.tcp h)
  | some (OpenFail.perm m) => Except.error (PyErr.permissionError m)
  | some (OpenFail.oth m) => Except.error (PyErr.otherError m)

/-- The body of one iteration of `get_interface`'s `try:` block: dispatch
on `interface_type`, resolve the serial port (explicit, or enumerated when
the configured port is falsy), or open the TCP transport. -/
def giBody (env : IfaceEnv) (sc : PyDict) (attempt : Nat) :
    Except PyErr Interface :=
  match pyGet sc "interface_type" with
  | Except.error e => Except.error e
  | Except.ok it =>
    if it == PyVal.str "serial" then
      match pyGet sc "port" with
      | Except.error e => Except.error e
      | Except.ok pv =>
        if pv.isTruthy then
          match pv with
          | PyVal.str p => env.openSerial attempt p
          | _ => Except.error (PyErr.otherError "TypeError: invalid port value")
        else
          match env.ports with
          | [p] => env.openSerial attempt p
          | [] => Except.error (PyErr.valueError "No serial ports detected.")
          | ports =>
            Except.error (PyErr.valueError
              ("Multiple serial ports detected: " ++ String.intercalate ", " ports ++
               ". Specify one with the 'port' argument."))
    else if it == PyVal.str "tcp" then
      match pyGet sc "hostname" with
      | Except.error e => Except.error e
      | Except.ok hv =>
        if hv.isTruthy then
          match hv with
          | PyVal.str h => env.openTCP attempt h
          | _ => Except.error (PyErr.otherError "TypeError: invalid hostname value")
        else
          Except.error (PyErr.valueError "Hostname must be specified for TCP interface")
    else
      Except.error (PyErr.valueError "Invalid interface type specified in config file")

/-- The `while True:` of `get_interface`: a `PermissionError` from the body
is printed, followed by `time.sleep(5)`, and the loop retries from the
top; every other exception propagates.  `none` = fuel exhausted while
still retrying; otherwise the retry events together with the result. -/
def get_interfaceAux (env : IfaceEnv) (sc : PyDict) :
    Nat → Nat → Option (List Ev × Except PyErr Interface)
  | 0, _ => Option.none
  | fuel + 1, attempt =>
    match giBody env sc attempt with
    | Except.ok i => some ([], Except.ok i)
    | Except.error (PyErr.permissionError m) =>
      match get_interfaceAux env sc fuel (attempt + 1) with
      | Option.none => Option.none
      | some (evs, r) =>
        some (Ev.printEv ("PermissionError: " ++ m ++ ". Retrying in 5 seconds...") ::
              Ev.sleepEv 5 :: evs, r)
    | Except.error e => some ([], Except.error e)

/-- `config_init.get_interface`, starting at attempt 0. -/
def get_interface (env : IfaceEnv) (sc : PyDict) (fuel : Nat) :
    Option (List Ev × Except PyErr Interface) :=
  get_interfaceAux env sc fuel 0

/-- `config_init.fetch_weather_alerts`: returns the decoded JSON dict on
status 200 (represented by its optional `features` key), otherwise prints
the failure and returns the empty dict (no `features` key). -/
def fetch_weather_alerts (r : HttpResponse) :
    List Ev × Option (List Alert) :=
  if r.status == 200 then ([], r.features)
  else ([Ev.printEv ("Failed to fetch weather alerts: " ++ toString r.status)],
        Option.none)

/-- The message `config_init.broadcast_weather_alerts` builds for one
feature. -/
def alertMessage (a : Alert) : String :=
  let props := a.properties.getD Properties.empty
  "Weather Alert: " ++ props.event.getD "Unknown Event" ++ " - " ++
    props.description.getD "No description available"

/-- `config_init.broadcast_weather_alerts`: when the dict has a non-empty
`features` list, send each formatted message (no explicit destination)
and print it; otherwise print that there is nothing to broadcast. -/
def broadcast_weather_alerts (alerts : Option (List Alert)) : List Ev :=
  match alerts with
  | some features =>
    if features ≠ [] then
      features.flatMap fun a =>
        [Ev.sendText (alertMessage a) Option.none,
         Ev.printEv ("Broadcasting: " ++ alertMessage a)]
    else
      [Ev.printEv "No weather alerts to broadcast."]
  | Option.none => [Ev.printEv "No weather alerts to broadcast."]

end ConfigInit

/-- Environment of the broadcast loops: the outcome of the cycle-k HTTP
request (`Except.error` = `requests.get` itself raised), the failure (if
any) of the i-th send of cycle k, and the cycle during whose sleep a
`KeyboardInterrupt` arrives (`none` = never). -/
structure Env where
  resp : Nat → Except String HttpResponse
  sendFail : Nat → Nat → Option String
  kbAt : Option Nat

namespace MessageProcessing

/-- `message_processing.fetch_weather_alerts`: on status 200 return
`response.json().get('features', [])`; otherwise log the status and body
and return the empty list. -/
def fetch_weather_alerts (r : HttpResponse) : List Ev × List Alert :=
  if r.status == 200 then ([], r.features.getD [])
  else ([Ev.log ("Failed to fetch weather alerts: " ++ toString r.status ++ " " ++ r.text)],
        [])

/-- `message_processing.format_alert_message`: placeholders for missing
`headline` / `description` / `instruction`; the template has no event
field. -/
def format_alert_message (alert : Alert) : String :=
  let properties := alert.properties.getD Properties.empty
  "🚨Weather Alert🚨\nHeadline: " ++ properties.headline.getD "No headline" ++
    "\nDescription: " ++ properties.description.getD "No description" ++
    "\nInstruction: " ++ properties.instruction.getD "No instruction"

/-- Modelled from the spec: `utils.send_message` is imported from a
`utils` module that is not among the sources.  Per §6 the Transport
capability exposes `send(text, destination)`; sending either delivers the
text to the destination or raises a `SendFailure` (supplied here by the
environment for send i of cycle k). -/
def send_message (env : Env) (k i : Nat) (message : String) (dest : Nat) :
    List Ev × Option String :=
  match env.sendFail k i with
  | some e => ([], some e)
  | Option.none => ([Ev.sendText message (some dest)], Option.none)

/-- The `for alert in alerts:` loop of
`message_processing.broadcast_weather_alerts`: format and send each alert
in order; a raising send aborts the loop with that exception. -/
def sendLoop (env : Env) (k : Nat) : Nat → List Alert → List Ev × Option String
  | _, [] => ([], Option.none)
  | i, a :: rest =>
    let message := format_alert_message a
    let s := send_message env k i message BROADCAST_NUM
    match s.2 with
    | some e => (s.1, some e)
    | Option.none =>
      let t := sendLoop env k (i + 1) rest
      (s.1 ++ t.1, t.2)

/-- One call of `message_processing.broadcast_weather_alerts` during cycle
k: fetch (the HTTP request may raise), then format-and-send each alert. -/
def broadcast_weather_alerts (env : Env) (k : Nat) : List Ev × Option String :=
  match env.resp k with
  | Except.error e => ([], some e)
  | Except.ok r =>
    let f := fetch_weather_alerts r
    let t := sendLoop env k 0 f.2
    (f.1 ++ t.1, t.2)

/-- The `while True:` of `message_processing.main`: each cycle broadcasts
then sleeps inside a `try:`; any `Exception` is logged by the `except`
and the loop continues with the next cycle (the sleep is skipped).  A
`KeyboardInterrupt` during the sleep is not an `Exception` and propagates,
ending the loop (second component `true`); `false` = fuel exhausted while
still looping. -/
def mainAux (env : Env) (interval : Nat) : Nat → Nat → List Ev × Bool
  | 0, _ => ([], false)
  | fuel + 1, k =>
    let c := broadcast_weather_alerts env k
    match c.2 with
    | some e =>
      let t := mainAux env interval fuel (k + 1)
      (c.1 ++ Ev.log ("Error in main loop: " ++ e) :: t.1, t.2)
    | Option.none =>
      if env.kbAt == some k then (c.1 ++ [Ev.sleepEv interval], true)
      else
        let t := mainAux env interval fuel (k + 1)
        (c.1 ++ Ev.sleepEv interval :: t.1, t.2)

/-- `message_processing.main`, starting at cycle 0. -/
def main (env : Env) (interval : Nat) (fuel : Nat) : List Ev × Bool :=
  mainAux env interval fuel 0

end MessageProcessing

namespace Server

/-- `server.fetch_weather_alerts`: `response.raise_for_status()` raises an
`HTTPError` on 4xx/5xx statuses; otherwise return
`response.json().get('features', [])`. -/
def fetch_weather_alerts (r : HttpResponse) : Except String (List Alert) :=
  if 400 ≤ r.status ∧ r.status < 600 then
    Except.error ("HTTPError: " ++ toString r.status)
  else Except.ok (r.features.getD [])

/-- The message `server.broadcast_alerts` builds for one alert:
`alert['properties']` and the `event` / `headline` / `description` lookups
raise `KeyError` when absent (the template has no instruction field). -/
def formatAlert (a : Alert) : Except PyErr String :=
  match a.properties with
  | Option.none => Except.error (PyErr.keyError "properties")
  | some p =>
    match p.event with
    | Option.none => Except.error (PyErr.keyError "event")
    | some ev =>
      match p.headline with
      | Option.none => Except.error (PyErr.keyError "headline")
      | some hd =>
        match p.description with
        | Option.none => Except.error (PyErr.keyError "description")
        | some ds =>
          Except.ok ("⚠️ Weather Alert: " ++ ev ++ "\n" ++ hd ++ "\n" ++ ds)

/-- Render a raised `PyErr` the way `f"{e}"` does in the log line. -/
def PyErrStr : PyErr → String
  | PyErr.permissionError m => m
  | PyErr.valueError m => m
  | PyErr.otherError m => m
  | PyErr.keyError k => "'" ++ k ++ "'"

/-- The `for alert in alerts:` loop of `server.broadcast_alerts`: build the
message (may raise `KeyError`), log it, then `interface.sendText(message,
BROADCAST_NUM)` (may raise a send failure); a raise aborts the loop. -/
def sendLoop (env : Env) (k : Nat) : Nat → List Alert → List Ev × Option String
  | _, [] => ([], Option.none)
  | i, a :: rest =>
    match formatAlert a with
    | Except.error e => ([], some (PyErrStr e))
    | Except.ok message =>
      match env.sendFail k i with
      | some e => ([Ev.log ("Broadcasting message: " ++ message)], some e)
      | Option.none =>
        let t := sendLoop env k (i + 1) rest
        (Ev.log ("Broadcasting message: " ++ message) ::
         Ev.sendText message (some BROADCAST_NUM) :: t.1, t.2)

/-- One cycle of `server.main`'s loop body: fetch (the request or
`raise_for_status` may raise), then broadcast the alerts or log that none
are active. -/
def cycle (env : Env) (k : Nat) : List Ev × Option String :=
  match env.resp k with
  | Except.error e => ([], some e)
  | Except.ok r =>
    match fetch_weather_alerts r with
    | Except.error e => ([], some e)
    | Except.ok alerts =>
      if alerts.isEmpty then ([Ev.log "No active alerts at the moment."], Option.none)
      else sendLoop env k 0 alerts

/-- How `server.main`'s `while True:` loop ends: a `KeyboardInterrupt`
during the sleep, or an `Exception` raised by a cycle. -/
inductive SExit where
  | kb
  | exc (e : String)
deriving Repr, DecidableEq

/-- The `while True:` inside `server.main`'s `try:`: run a cycle; any
exception ends the loop immediately (it is caught outside the loop); on
success sleep 600 seconds, during which a `KeyboardInterrupt` may arrive.
`none` = fuel exhausted while still looping. -/
def loopAux (env : Env) : Nat → Nat → List Ev × Option SExit
  | 0, _ => ([], Option.none)
  | fuel + 1, k =>
    let c := cycle env k
    match c.2 with
    | some e => (c.1, some (SExit.exc e))
    | Option.none =>
      if env.kbAt == some k then (c.1 ++ [Ev.sleepEv 600], some SExit.kb)
      else
        let t := loopAux env fuel (k + 1)
        (c.1 ++ Ev.sleepEv 600 :: t.1, t.2)

/-- The `try:`/`except` of `server.main` around the loop: on
`KeyboardInterrupt` log the shutdown and close the interface; on any other
`Exception` log it and close the interface.  The second component is
`true` when the loop (and with it the process) terminated. -/
def mainLoop (env : Env) (fuel : Nat) : List Ev × Bool :=
  match loopAux env fuel 0 with
  | (t, Option.none) => (t, false)
  | (t, some SExit.kb) =>
    (t ++ [Ev.log "Shutting down the Weather Alerts system...", Ev.closeEv], true)
  | (t, some (SExit.exc e)) =>
    (t ++ [Ev.log ("An error occurred: " ++ e), Ev.closeEv], true)

/-- The startup sequence of `server.main`: build and merge the
configuration, resolve the interface, then read `system_config['state']`
before entering the loop.  `none` = `get_interface` still retrying when
its fuel ran out; `Except.error` = an exception propagated out of `main`
(a resolver error, or the `KeyError` from the `'state'` lookup). -/
def mainStart (f : ConfigInit.ConfigFile) (a : ConfigInit.Args)
    (ienv : ConfigInit.IfaceEnv) (giFuel : Nat) (env : Env) (loopFuel : Nat) :
    Option (List Ev × Except PyErr (List Ev × Bool)) :=
  let sc := ConfigInit.merge_config (ConfigInit.initialize_config f) a
  match ConfigInit.get_interface ienv sc giFuel with
  | Option.none => Option.none
  | some (evs, Except.error e) => some (evs, Except.error e)
  | some (evs, Except.ok _iface) =>
    match dictGet sc "state" with
    | Option.none => some (evs, Except.error (PyErr.keyError "state"))
    | some v =>
      match pyGet sc "interface_type" with
      | Except.error e => some (evs, Except.error e)
      | Except.ok it =>
        let r := mainLoop env loopFuel
        some (evs,
          Except.ok (Ev.log ("Weather Alerts system running for state: " ++ v.pyStr ++
            " on " ++ it.pyStr ++ " interface...") :: r.1, r.2))

end Server

/-! ## Concrete inputs used by the theorems below -/

/-- One feed feature with all four property fields present (the spec's
end-to-end scenario). -/
def alertFull : Alert :=
  { properties := some
      { event := some "Tornado Warning", headline := some "Tornado Warning issued",
        description := some "Seek shelter now", instruction := some "Take shelter" } }

/-- One feed feature whose `properties` object is present but has none of
the four fields. -/
def alertEmpty : Alert :=
  { properties := some
      { event := Option.none, headline := Option.none,
        description := Option.none, instruction := Option.none } }

/-- One feed feature missing only its `headline` field. -/
def alertNoHeadline : Alert :=
  { properties := some
      { event := some "Tornado Warning", headline := Option.none,
        description := some "Seek shelter now", instruction := some "Take shelter" } }

/-- Environment where every cycle's response is a 200 with `[alertFull]`,
no send fails, and no interrupt arrives. -/
def envScenario : Env :=
  { resp := fun _ => Except.ok { status := 200, text := "", features := some [alertFull] },
    sendFail := fun _ _ => Option.none, kbAt := Option.none }

/-- Environment where every cycle's response is a 500, no send fails, no
interrupt. -/
def envFeed500 : Env :=
  { resp := fun _ => Except.ok { status := 500, text := "internal error", features := Option.none },
    sendFail := fun _ _ => Option.none, kbAt := Option.none }

/-- Environment where every cycle's response is a 404, no send fails, no
interrupt. -/
def envFeed404 : Env :=
  { resp := fun _ => Except.ok { status := 404, text := "not found", features := Option.none },
    sendFail := fun _ _ => Option.none, kbAt := Option.none }

/-- Environment where `requests.get` itself raises on every cycle, no
send fails, no interrupt. -/
def envNetDown : Env :=
  { resp := fun _ => Except.error "ConnectionError",
    sendFail := fun _ _ => Option.none, kbAt := Option.none }

/-- Environment where every cycle is a 200 with no alerts, and a
`KeyboardInterrupt` arrives during the first sleep. -/
def envKb : Env :=
  { resp := fun _ => Except.ok { status := 200, text := "", features := some [] },
    sendFail := fun _ _ => Option.none, kbAt := some 0 }

/-- Resolver environment: no serial ports, every open succeeds. -/
def ienvOpenOK : ConfigInit.IfaceEnv :=
  { ports := [], openFail := fun _ => Option.none }

/-- Resolver environment: every open attempt raises `PermissionError`. -/
def ienvPermAlways : ConfigInit.IfaceEnv :=
  { ports := [], openFail := fun _ => some (ConfigInit.OpenFail.perm "denied") }

/-- Resolver environment: the first two open attempts raise
`PermissionError`, the third succeeds. -/
def ienvPerm2 : ConfigInit.IfaceEnv :=
  { ports := [], openFail := fun n => if n < 2 then some (ConfigInit.OpenFail.perm "denied") else Option.none }

/-- Config file of the CLI-host scenario: TCP with a file-supplied
hostname. -/
def fileTcpHost : ConfigInit.ConfigFile :=
  { iface_type := some "tcp", hostname := some "filehost", port := Option.none,
    location := some "CA" }

/-- Config file of the CLI-host scenario: TCP with no file hostname. -/
def fileTcpNoHost : ConfigInit.ConfigFile :=
  { iface_type := some "tcp", hostname := Option.none, port := Option.none,
    location := Option.none }

/-- CLI arguments supplying `--host clihost --location IL`. -/
def argsCliHost : ConfigInit.Args :=
  { config := Option.none, interface_type := Option.none, port := Option.none,
    host := some "clihost", location := some "IL" }

/-- A serial configuration dict whose `port` entry is `None` (falsy). -/
def scSerialNoPort : PyDict :=
  [("interface_type", PyVal.str "serial"), ("port", PyVal.none), ("hostname", PyVal.none)]

/-- A serial configuration dict with an explicit port. -/
def scSerialPort : PyDict :=
  [("interface_type", PyVal.str "serial"), ("port", PyVal.str "/dev/ttyS0"),
   ("hostname", PyVal.none)]

/-! ## Helper lemmas -/

/-- Setting a key then looking one up: the set key returns the new value,
every other key is unchanged. -/
theorem dictGet_dictSet (d : PyDict) (k k' : String) (v : PyVal) :
    dictGet (dictSet d k v) k' = if k = k' then some v else dictGet d k' := by
  induction d with
  | nil => simp only [dictSet, dictGet, beq_iff_eq]
  | cons p rest ih =>
    obtain ⟨a, b⟩ := p
    by_cases hak : a = k
    · subst hak
      simp only [dictSet, beq_iff_eq, if_pos rfl, dictGet]
      by_cases hk : a = k'
      · subst hk; simp
      · simp [hk, dictGet]
    · simp only [dictSet, beq_iff_eq, if_neg hak, dictGet, ih]
      by_cases hak' : a = k'
      · subst hak'
        have : ¬ k = a := fun h => hak h.symm
        simp [this]
      · simp [hak']

/-- Lookup of a key other than the four merged ones is unchanged by
`merge_config`. -/
theorem dictGet_merge_config_other (d : PyDict) (a : ConfigInit.Args) (k : String)
    (h1 : k ≠ "interface_type") (h2 : k ≠ "port") (h3 : k ≠ "host") (h4 : k ≠ "location") :
    dictGet (ConfigInit.merge_config d a) k = dictGet d k := by
  unfold ConfigInit.merge_config
  cases a.interface_type <;> cases a.port <;> cases a.host <;> cases a.location <;>
    simp [dictGet_dictSet, Ne.symm h1, Ne.symm h2, Ne.symm h3, Ne.symm h4]

/-- Lookup of `interface_type` after the merge. -/
theorem dictGet_merge_config_iface (d : PyDict) (a : ConfigInit.Args) :
    dictGet (ConfigInit.merge_config d a) "interface_type" =
      (match a.interface_type with
       | some v => some (PyVal.str v)
       | Option.none => dictGet d "interface_type") := by
  unfold ConfigInit.merge_config
  cases a.interface_type <;> cases a.port <;> cases a.host <;> cases a.location <;>
    simp [dictGet_dictSet]

/-- Lookup of `port` after the merge. -/
theorem dictGet_merge_config_port (d : PyDict) (a : ConfigInit.Args) :
    dictGet (ConfigInit.merge_config d a) "port" =
      (match a.port with
       | some v => some (PyVal.str v)
       | Option.none => dictGet d "port") := by
  unfold ConfigInit.merge_config
  cases a.interface_type <;> cases a.port <;> cases a.host <;> cases a.location <;>
    simp [dictGet_dictSet]

/-- Lookup of `host` after the merge. -/
theorem dictGet_merge_config_host (d : PyDict) (a : ConfigInit.Args) :
    dictGet (ConfigInit.merge_config d a) "host" =
      (match a.host with
       | some v => some (PyVal.str v)
       | Option.none => dictGet d "host") := by
  unfold ConfigInit.merge_config
  cases a.interface_type <;> cases a.port <;> cases a.host <;> cases a.location <;>
    simp [dictGet_dictSet]

/-- Lookup of `location` after the merge. -/
theorem dictGet_merge_config_location (d : PyDict) (a : ConfigInit.Args) :
    dictGet (ConfigInit.merge_config d a) "location" =
      (match a.location with
       | some v => some (PyVal.str v)
       | Option.none => dictGet d "location") := by
  unfold ConfigInit.merge_config
  cases a.interface_type <;> cases a.port <;> cases a.host <;> cases a.location <;>
    simp [dictGet_dictSet]

/-- Every event the message_processing send loop emits is a send. -/
theorem mp_sendLoop_events (env : Env) (k : Nat) :
    ∀ (alerts : List Alert) (i : Nat) (e : Ev),
      e ∈ (MessageProcessing.sendLoop env k i alerts).1 → ∃ m d, e = Ev.sendText m d := by
  intro alerts
  induction alerts with
  | nil => intro i e h; simp [MessageProcessing.sendLoop] at h
  | cons a rest ih =>
    intro i e h
    simp only [MessageProcessing.sendLoop, MessageProcessing.send_message] at h
    cases hf : env.sendFail k i with
    | some er => rw [hf] at h; simp at h
    | none =>
      rw [hf] at h
      simp at h
      rcases h with h | h
      · exact ⟨_, _, h⟩
      · exact ih (i + 1) e h

/-- Every event one message_processing broadcast call emits is a log or a
send (in particular, never a sleep and never a close). -/
theorem mp_broadcast_events (env : Env) (k : Nat) (e : Ev)
    (h : e ∈ (MessageProcessing.broadcast_weather_alerts env k).1) :
    (∃ m, e = Ev.log m) ∨ ∃ m d, e = Ev.sendText m d := by
  simp only [MessageProcessing.broadcast_weather_alerts] at h
  cases hr : env.resp k with
  | error er => rw [hr] at h; simp at h
  | ok r =>
    rw [hr] at h
    simp only at h
    rcases List.mem_append.1 h with h | h
    · by_cases hs : (r.status == 200) = true
      · simp [MessageProcessing.fetch_weather_alerts, hs] at h
      · simp only [MessageProcessing.fetch_weather_alerts, Bool.not_eq_true] at hs
        simp [MessageProcessing.fetch_weather_alerts, hs] at h
        exact Or.inl ⟨_, h⟩
    · exact Or.inr (mp_sendLoop_events env k _ _ e h)

/-- Every event the server send loop emits is a log or a send. -/
theorem server_sendLoop_events (env : Env) (k : Nat) :
    ∀ (alerts : List Alert) (i : Nat) (e : Ev),
      e ∈ (Server.sendLoop env k i alerts).1 →
      (∃ m, e = Ev.log m) ∨ ∃ m d, e = Ev.sendText m d := by
  intro alerts
  induction alerts with
  | nil => intro i e h; simp [Server.sendLoop] at h
  | cons a rest ih =>
    intro i e h
    simp only [Server.sendLoop] at h
    cases hfa : Server.formatAlert a with
    | error er => rw [hfa] at h; simp at h
    | ok msg =>
      rw [hfa] at h
      cases hf : env.sendFail k i with
      | some er => rw [hf] at h; simp at h; exact Or.inl ⟨_, h⟩
      | none =>
        rw [hf] at h
        simp at h
        rcases h with h | h | h
        · exact Or.inl ⟨_, h⟩
        · exact Or.inr ⟨_, _, h⟩
        · exact ih (i + 1) e h

/-- Every event one server cycle emits is a log or a send. -/
theorem server_cycle_events (env : Env) (k : Nat) (e : Ev)
    (h : e ∈ (Server.cycle env k).1) :
    (∃ m, e = Ev.log m) ∨ ∃ m d, e = Ev.sendText m d := by
  simp only [Server.cycle] at h
  split at h
  · simp at h
  · split at h
    · simp at h
    · split at h
      · simp at h; exact Or.inl ⟨_, h⟩
      · exact server_sendLoop_events env k _ 0 e h

/-- The server loop never emits a close event itself (the close happens in
`main`'s exception handlers, outside the loop). -/
theorem server_loopAux_no_close (env : Env) :
    ∀ (fuel k : Nat), Ev.closeEv ∉ (Server.loopAux env fuel k).1 := by
  intro fuel
  induction fuel with
  | zero => intro k h; simp [Server.loopAux] at h
  | succ n ih =>
    intro k h
    simp only [Server.loopAux] at h
    split at h
    · simp at h
      rcases server_cycle_events env k _ h with ⟨m, hm⟩ | ⟨m, d, hm⟩ <;> exact Ev.noConfusion hm
    · split at h
      · simp at h
        rcases server_cycle_events env k _ h with ⟨m, hm⟩ | ⟨m, d, hm⟩ <;> exact Ev.noConfusion hm
      · simp at h
        rcases h with h | h
        · rcases server_cycle_events env k _ h with ⟨m, hm⟩ | ⟨m, d, hm⟩ <;> exact Ev.noConfusion hm
        · exact ih (k + 1) h

/-- The message_processing loop never emits a close event at all. -/
theorem mp_mainAux_no_close (env : Env) (interval : Nat) :
    ∀ (fuel k : Nat), Ev.closeEv ∉ (MessageProcessing.mainAux env interval fuel k).1 := by
  intro fuel
  induction fuel with
  | zero => intro k h; simp [MessageProcessing.mainAux] at h
  | succ n ih =>
    intro k h
    simp only [MessageProcessing.mainAux] at h
    split at h
    · simp at h
      rcases h with h | h
      · rcases mp_broadcast_events env k _ h with ⟨m, hm⟩ | ⟨m, d, hm⟩ <;> exact Ev.noConfusion hm
      · exact ih (k + 1) h
    · split at h
      · simp at h
        rcases mp_broadcast_events env k _ h with ⟨m, hm⟩ | ⟨m, d, hm⟩ <;> exact Ev.noConfusion hm
      · simp at h
        rcases h with h | h
        · rcases mp_broadcast_events env k _ h with ⟨m, hm⟩ | ⟨m, d, hm⟩ <;> exact Ev.noConfusion hm
        · exact ih (k + 1) h

/-- The body of `get_interface`'s try block, for a serial configuration
with a falsy `port` entry, is the port-enumeration dispatch. -/
theorem giBody_serial_noport (env : ConfigInit.IfaceEnv) (sc : PyDict) (attempt : Nat)
    (pv : PyVal) (hit : pyGet sc "interface_type" = Except.ok (PyVal.str "serial"))
    (hpv : pyGet sc "port" = Except.ok pv) (hfx : pv.isTruthy = false) :
    ConfigInit.giBody env sc attempt =
      (match env.ports with
       | [p] => env.openSerial attempt p
       | [] => Except.error (PyErr.valueError "No serial ports detected.")
       | ports => Except.error (PyErr.valueError
           ("Multiple serial ports detected: " ++ String.intercalate ", " ports ++
            ". Specify one with the 'port' argument."))) := by
  unfold ConfigInit.giBody
  rw [hit, hpv]
  simp [hfx]

/-- The fixed entries of the dict `initialize_config` builds: the four
documented keys are present (holding the file values), and neither a
`host` nor a `state` key exists. -/
theorem initialize_config_get (f : ConfigInit.ConfigFile) :
    dictGet (ConfigInit.initialize_config f) "interface_type" = some (ConfigInit.optVal f.iface_type)
    ∧ dictGet (ConfigInit.initialize_config f) "hostname" = some (ConfigInit.optVal f.hostname)
    ∧ dictGet (ConfigInit.initialize_config f) "port" = some (ConfigInit.optVal f.port)
    ∧ dictGet (ConfigInit.initialize_config f) "location" = some (ConfigInit.optVal f.location)
    ∧ dictGet (ConfigInit.initialize_config f) "host" = Option.none
    ∧ dictGet (ConfigInit.initialize_config f) "state" = Option.none := by
  refine ⟨?_, ?_, ?_, ?_, ?_, ?_⟩ <;> rfl

/-- Claim C10: `merge_config` returns the dict it received, in which only
the keys `interface_type`, `port`, `host`, and `location` are modified,
each overwritten exactly when the corresponding CLI argument is not None;
every other key keeps its prior value. -/
theorem merge_config_frame (d : PyDict) (a : ConfigInit.Args) :
    (∀ k, k ≠ "interface_type" → k ≠ "port" → k ≠ "host" → k ≠ "location" →
       dictGet (ConfigInit.merge_config d a) k = dictGet d k)
    ∧ dictGet (ConfigInit.merge_config d a) "interface_type" =
        (match a.interface_type with
         | some v => some (PyVal.str v)
         | Option.none => dictGet d "interface_type")
    ∧ dictGet (ConfigInit.merge_config d a) "port" =
        (match a.port with
         | some v => some (PyVal.str v)
         | Option.none => dictGet d "port")
    ∧ dictGet (ConfigInit.merge_config d a) "host" =
        (match a.host with
         | some v => some (PyVal.str v)
         | Option.none => dictGet d "host")
    ∧ dictGet (ConfigInit.merge_config d a) "location" =
        (match a.location with
         | some v => some (PyVal.str v)
         | Option.none => dictGet d "location") :=
  ⟨fun k h1 h2 h3 h4 => dictGet_merge_config_other d a k h1 h2 h3 h4,
   dictGet_merge_config_iface d a, dictGet_merge_config_port d a,
   dictGet_merge_config_host d a, dictGet_merge_config_location d a⟩

/-- Witness for C10: with CLI args `--host clihost --location IL`, the
`hostname` entry of the dict is untouched by the merge. -/
theorem merge_config_frame_witness :
    dictGet (ConfigInit.merge_config
        [("hostname", PyVal.str "filehost"), ("port", PyVal.none)] argsCliHost) "hostname"
      = some (PyVal.str "filehost") :=
  (merge_config_frame [("hostname", PyVal.str "filehost"), ("port", PyVal.none)]
      argsCliHost).1 "hostname" (by decide) (by decide) (by decide) (by decide)

/-- Claim C9: the configuration dict produced by `initialize_config` then
`merge_config` always has the keys `interface_type`, `hostname`, `port`,
`location`, has `host` exactly when the CLI supplied one, and never has a
key `state`; consequently, whenever the resolver returns an interface,
`server.main`'s lookup of `system_config['state']` raises a `KeyError`
before the broadcast loop begins. -/
theorem no_state_key (f : ConfigInit.ConfigFile) (a : ConfigInit.Args) :
    (dictGet (ConfigInit.merge_config (ConfigInit.initialize_config f) a) "interface_type").isSome = true
    ∧ (dictGet (ConfigInit.merge_config (ConfigInit.initialize_config f) a) "hostname").isSome = true
    ∧ (dictGet (ConfigInit.merge_config (ConfigInit.initialize_config f) a) "port").isSome = true
    ∧ (dictGet (ConfigInit.merge_config (ConfigInit.initialize_config f) a) "location").isSome = true
    ∧ (dictGet (ConfigInit.merge_config (ConfigInit.initialize_config f) a) "host").isSome = a.host.isSome
    ∧ dictGet (ConfigInit.merge_config (ConfigInit.initialize_config f) a) "state" = Option.none
    ∧ ∀ ienv giFuel env loopFuel evs i,
        ConfigInit.get_interface ienv
            (ConfigInit.merge_config (ConfigInit.initialize_config f) a) giFuel
          = some (evs, Except.ok i) →
        Server.mainStart f a ienv giFuel env loopFuel
          = some (evs, Except.error (PyErr.keyError "state")) := by
  obtain ⟨hit, hhn, hpt, hlc, hho, hst⟩ := initialize_config_get f
  have hstate : dictGet (ConfigInit.merge_config (ConfigInit.initialize_config f) a) "state"
      = Option.none := by
    rw [dictGet_merge_config_other _ _ _ (by decide) (by decide) (by decide) (by decide), hst]
  refine ⟨?_, ?_, ?_, ?_, ?_, hstate, ?_⟩
  · rw [dictGet_merge_config_iface]
    cases a.interface_type <;> simp [hit]
  · rw [dictGet_merge_config_other _ _ _ (by decide) (by decide) (by decide) (by decide), hhn]
    rfl
  · rw [dictGet_merge_config_port]
    cases a.port <;> simp [hpt]
  · rw [dictGet_merge_config_location]
    cases a.location <;> simp [hlc]
  · rw [dictGet_merge_config_host]
    cases a.host <;> simp [hho]
  · intro ienv giFuel env loopFuel evs i hgi
    simp only [Server.mainStart]
    rw [hgi, hstate]

/-- Witness for C9: the TCP scenario configuration resolves, and
`server.main` then stops with `KeyError: 'state'`. -/
theorem no_state_key_witness :
    Server.mainStart fileTcpHost argsCliHost ienvOpenOK 1 envScenario 3
      = some ([], Except.error (PyErr.keyError "state")) :=
  (no_state_key fileTcpHost argsCliHost).2.2.2.2.2.2 ienvOpenOK 1 envScenario 3 []
    (ConfigInit.Interface.tcp "filehost") (by rfl)

/-- Claim C8 (code bug): `merge_config` stores the CLI `--host` under the
key `host`, but `get_interface` reads the key `hostname`; so with a file
hostname `filehost` and CLI `--host clihost` the resolver opens TCP to
`filehost` (the CLI value sits unread under `host`), and with no file
hostname it raises `ValueError` despite the CLI host. -/
theorem cli_host_not_used :
    dictGet (ConfigInit.merge_config (ConfigInit.initialize_config fileTcpHost) argsCliHost)
        "host" = some (PyVal.str "clihost")
    ∧ ConfigInit.get_interface ienvOpenOK
        (ConfigInit.merge_config (ConfigInit.initialize_config fileTcpHost) argsCliHost) 1
      = some ([], Except.ok (ConfigInit.Interface.tcp "filehost"))
    ∧ ConfigInit.get_interface ienvOpenOK
        (ConfigInit.merge_config (ConfigInit.initialize_config fileTcpNoHost) argsCliHost) 1
      = some ([], Except.error
          (PyErr.valueError "Hostname must be specified for TCP interface")) := by
  refine ⟨?_, ?_, ?_⟩ <;> rfl

/-- Claim C3: with a serial configuration and no (truthy) explicit port,
`get_interface` enumerates the ports: exactly one candidate is opened and
returned bound to that port, with no retry events and no error; zero
candidates fail fatally at once; two or more candidates fail fatally with
an error naming every candidate, with no open attempt (the result does
not depend on the open outcomes at all). -/
theorem serial_port_enumeration (sc : PyDict) (fuel : Nat) (pv : PyVal)
    (hit : pyGet sc "interface_type" = Except.ok (PyVal.str "serial"))
    (hpv : pyGet sc "port" = Except.ok pv) (hfx : pv.isTruthy = false) :
    (∀ (env : ConfigInit.IfaceEnv) (p : String), env.ports = [p] →
       env.openFail 0 = Option.none →
       ConfigInit.get_interface env sc (fuel + 1)
         = some ([], Except.ok (ConfigInit.Interface.serial p)))
    ∧ (∀ env : ConfigInit.IfaceEnv, env.ports = [] →
       ConfigInit.get_interface env sc (fuel + 1)
         = some ([], Except.error (PyErr.valueError "No serial ports detected.")))
    ∧ (∀ (env : ConfigInit.IfaceEnv) (p q : String) (rest : List String),
       env.ports = p :: q :: rest →
       ConfigInit.get_interface env sc (fuel + 1)
         = some ([], Except.error (PyErr.valueError
             ("Multiple serial ports detected: " ++
              String.intercalate ", " (p :: q :: rest) ++
              ". Specify one with the 'port' argument.")))) := by
  refine ⟨?_, ?_, ?_⟩
  · intro env p hports hopen
    have hb := giBody_serial_noport env sc 0 pv hit hpv hfx
    rw [hports] at hb
    simp only at hb
    have hok : ConfigInit.giBody env sc 0 = Except.ok (ConfigInit.Interface.serial p) := by
      rw [hb]
      unfold ConfigInit.IfaceEnv.openSerial
      rw [hopen]
    unfold ConfigInit.get_interface ConfigInit.get_interfaceAux
    rw [hok]
  · intro env hports
    have hb := giBody_serial_noport env sc 0 pv hit hpv hfx
    rw [hports] at hb
    simp only at hb
    unfold ConfigInit.get_interface ConfigInit.get_interfaceAux
    rw [hb]
  · intro env p q rest hports
    have hb := giBody_serial_noport env sc 0 pv hit hpv hfx
    rw [hports] at hb
    simp only at hb
    unfold ConfigInit.get_interface ConfigInit.get_interfaceAux
    rw [hb]

/-- Witness for C3: the three enumeration outcomes at concrete port
lists. -/
theorem serial_port_enumeration_witness :
    ConfigInit.get_interface
        { ports := ["/dev/ttyUSB0"], openFail := fun _ => Option.none } scSerialNoPort 1
      = some ([], Except.ok (ConfigInit.Interface.serial "/dev/ttyUSB0"))
    ∧ ConfigInit.get_interface
        { ports := [], openFail := fun _ => Option.none } scSerialNoPort 1
      = some ([], Except.error (PyErr.valueError "No serial ports detected."))
    ∧ ConfigInit.get_interface
        { ports := ["/dev/ttyUSB0", "/dev/ttyACM1"], openFail := fun _ => Option.none }
        scSerialNoPort 1
      = some ([], Except.error (PyErr.valueError
          "Multiple serial ports detected: /dev/ttyUSB0, /dev/ttyACM1. Specify one with the 'port' argument.")) :=
  ⟨(serial_port_enumeration scSerialNoPort 0 PyVal.none (by rfl) (by rfl) (by rfl)).1
      _ "/dev/ttyUSB0" rfl rfl,
   (serial_port_enumeration scSerialNoPort 0 PyVal.none (by rfl) (by rfl) (by rfl)).2.1
      _ rfl,
   (serial_port_enumeration scSerialNoPort 0 PyVal.none (by rfl) (by rfl) (by rfl)).2.2
      _ "/dev/ttyUSB0" "/dev/ttyACM1" [] rfl⟩

/-- One-step unfolding of the retry loop of `get_interface`. -/
theorem get_interfaceAux_succ (env : ConfigInit.IfaceEnv) (sc : PyDict)
    (fuel attempt : Nat) :
    ConfigInit.get_interfaceAux env sc (fuel + 1) attempt =
      (match ConfigInit.giBody env sc attempt with
       | Except.ok i => some ([], Except.ok i)
       | Except.error (PyErr.permissionError m) =>
         (match ConfigInit.get_interfaceAux env sc fuel (attempt + 1) with
          | Option.none => Option.none
          | some (evs, r) =>
            some (Ev.printEv ("PermissionError: " ++ m ++ ". Retrying in 5 seconds...") ::
                  Ev.sleepEv 5 :: evs, r))
       | Except.error e => some ([], Except.error e)) := rfl

/-- Claim C2: a permission-denied open failure is printed and followed by
a fixed 5-second sleep, after which the resolver retries from the top;
when every attempt is permission-denied it retries forever (never
returns); permission-denied is the only retried outcome — any other error
from the body, and any success, ends the call immediately with no retry
events. -/
theorem permission_denied_retry (env : ConfigInit.IfaceEnv) (sc : PyDict) :
    (∀ fuel attempt m,
       ConfigInit.giBody env sc attempt = Except.error (PyErr.permissionError m) →
       ConfigInit.get_interfaceAux env sc (fuel + 1) attempt =
         (ConfigInit.get_interfaceAux env sc fuel (attempt + 1)).map
           (fun x => (Ev.printEv ("PermissionError: " ++ m ++ ". Retrying in 5 seconds...") ::
                      Ev.sleepEv 5 :: x.1, x.2)))
    ∧ (∀ fuel attempt e, ConfigInit.giBody env sc attempt = Except.error e →
       (∀ m, e ≠ PyErr.permissionError m) →
       ConfigInit.get_interfaceAux env sc (fuel + 1) attempt = some ([], Except.error e))
    ∧ (∀ fuel attempt i, ConfigInit.giBody env sc attempt = Except.ok i →
       ConfigInit.get_interfaceAux env sc (fuel + 1) attempt = some ([], Except.ok i))
    ∧ ((∀ attempt, ∃ m,
         ConfigInit.giBody env sc attempt = Except.error (PyErr.permissionError m)) →
       ∀ fuel attempt, ConfigInit.get_interfaceAux env sc fuel attempt = Option.none) := by
  refine ⟨?_, ?_, ?_, ?_⟩
  · intro fuel attempt m h
    rw [get_interfaceAux_succ, h]
    cases hr : ConfigInit.get_interfaceAux env sc fuel (attempt + 1) with
    | none => simp
    | some x => obtain ⟨evs, r⟩ := x; simp
  · intro fuel attempt e h hne
    rw [get_interfaceAux_succ, h]
    cases e with
    | permissionError m => exact absurd rfl (hne m)
    | valueError m => rfl
    | otherError m => rfl
    | keyError k => rfl
  · intro fuel attempt i h
    rw [get_interfaceAux_succ, h]
  · intro hall fuel
    induction fuel with
    | zero => intro attempt; rfl
    | succ n ih =>
      intro attempt
      obtain ⟨m, hm⟩ := hall attempt
      rw [get_interfaceAux_succ, hm, ih (attempt + 1)]

/-- Witness for C2: a permission-denied first attempt produces the retry
events; an always-denied environment never returns within 5 iterations; a
fatal enumeration error is not retried. -/
theorem permission_denied_retry_witness :
    ConfigInit.get_interfaceAux ienvPerm2 scSerialPort 3 0 =
      (ConfigInit.get_interfaceAux ienvPerm2 scSerialPort 2 1).map
        (fun x => (Ev.printEv "PermissionError: denied. Retrying in 5 seconds..." ::
                   Ev.sleepEv 5 :: x.1, x.2))
    ∧ ConfigInit.get_interfaceAux ienvPermAlways scSerialPort 5 0 = Option.none
    ∧ ConfigInit.get_interfaceAux ienvOpenOK scSerialNoPort 1 0
      = some ([], Except.error (PyErr.valueError "No serial ports detected.")) :=
  ⟨(permission_denied_retry ienvPerm2 scSerialPort).1 2 0 "denied" (by rfl),
   (permission_denied_retry ienvPermAlways scSerialPort).2.2.2
      (fun attempt => ⟨"denied", rfl⟩) 5 0,
   (permission_denied_retry ienvOpenOK scSerialNoPort).2.1 0 0
      (PyErr.valueError "No serial ports detected.") (by rfl)
      (fun m h => PyErr.noConfusion h)⟩

/-- Counterexample for C4: `server.py`'s fetch raises an `HTTPError` on a
404 response instead of returning an empty sequence. -/
theorem fetch_raises_counterexample :
    Server.fetch_weather_alerts { status := 404, text := "not found", features := Option.none }
      = Except.error "HTTPError: 404" := by
  rfl

/-- Claim C4 (amended): on a non-200 response,
`message_processing.fetch_weather_alerts` logs status and body and returns
the empty list, and `config_init.fetch_weather_alerts` prints the status
and returns the empty dict — neither raises; `server.py`'s fetch instead
raises an `HTTPError` for 4xx/5xx statuses. -/
theorem fetch_non_success (r : HttpResponse) (h : r.status ≠ 200) :
    MessageProcessing.fetch_weather_alerts r =
      ([Ev.log ("Failed to fetch weather alerts: " ++ toString r.status ++ " " ++ r.text)], [])
    ∧ ConfigInit.fetch_weather_alerts r =
      ([Ev.printEv ("Failed to fetch weather alerts: " ++ toString r.status)], Option.none)
    ∧ (400 ≤ r.status → r.status < 600 →
       Server.fetch_weather_alerts r = Except.error ("HTTPError: " ++ toString r.status)) := by
  have hb : (r.status == 200) = false := by
    simp [h]
  refine ⟨?_, ?_, ?_⟩
  · simp [MessageProcessing.fetch_weather_alerts, hb]
  · simp [ConfigInit.fetch_weather_alerts, hb]
  · intro h1 h2
    simp [Server.fetch_weather_alerts, h1, h2]

/-- Witness for C4 (amended): the three fetch outcomes at a concrete 503
response. -/
theorem fetch_non_success_witness :
    MessageProcessing.fetch_weather_alerts
        { status := 503, text := "unavailable", features := Option.none }
      = ([Ev.log "Failed to fetch weather alerts: 503 unavailable"], [])
    ∧ ConfigInit.fetch_weather_alerts
        { status := 503, text := "unavailable", features := Option.none }
      = ([Ev.printEv "Failed to fetch weather alerts: 503"], Option.none)
    ∧ Server.fetch_weather_alerts
        { status := 503, text := "unavailable", features := Option.none }
      = Except.error "HTTPError: 503" := by
  have h := fetch_non_success
    { status := 503, text := "unavailable", features := Option.none } (by decide)
  exact ⟨h.1, h.2.1, h.2.2 (by decide) (by decide)⟩

/-- Counterexample for C5: on an alert with an empty properties object,
`server.py`'s formatting raises `KeyError: 'event'` (no placeholder is
substituted and the cycle's send loop aborts), and `config_init`
substitutes "No description available", not the documented
"No description". -/
theorem missing_fields_counterexample :
    Server.formatAlert alertEmpty = Except.error (PyErr.keyError "event")
    ∧ Server.sendLoop envScenario 0 0 [alertEmpty] = ([], some "'event'")
    ∧ ConfigInit.alertMessage alertEmpty
      = "Weather Alert: Unknown Event - No description available" := by
  refine ⟨rfl, rfl, rfl⟩

/-- Claim C5 (amended): for an alert whose properties object is present,
whatever combination of fields is missing,
`message_processing.format_alert_message` returns normally and
substitutes exactly "No headline" / "No description" / "No instruction"
for each missing field while keeping present fields verbatim (its
template has no event slot, so "Unknown Event" never appears there);
`config_init` substitutes "Unknown Event" for a missing event and
"No description available" for a missing description; `server.py`'s
formatting instead raises `KeyError` naming the first missing field in
evaluation order (`event`, then `headline`, then `description`), for any
alert missing that field. -/
theorem missing_fields_placeholders (a : Alert) (p : Properties)
    (hp : a.properties = some p) :
    MessageProcessing.format_alert_message a =
      "🚨Weather Alert🚨\nHeadline: " ++ p.headline.getD "No headline" ++
        "\nDescription: " ++ p.description.getD "No description" ++
        "\nInstruction: " ++ p.instruction.getD "No instruction"
    ∧ ConfigInit.alertMessage a =
      "Weather Alert: " ++ p.event.getD "Unknown Event" ++ " - " ++
        p.description.getD "No description available"
    ∧ (p.event = Option.none →
       Server.formatAlert a = Except.error (PyErr.keyError "event"))
    ∧ (∀ ev, p.event = some ev → p.headline = Option.none →
       Server.formatAlert a = Except.error (PyErr.keyError "headline"))
    ∧ (∀ ev hd, p.event = some ev → p.headline = some hd →
       p.description = Option.none →
       Server.formatAlert a = Except.error (PyErr.keyError "description")) := by
  refine ⟨?_, ?_, ?_, ?_, ?_⟩
  · unfold MessageProcessing.format_alert_message
    rw [hp]
    rfl
  · unfold ConfigInit.alertMessage
    rw [hp]
    rfl
  · intro he
    unfold Server.formatAlert
    rw [hp]
    simp [he]
  · intro ev hev hhd
    unfold Server.formatAlert
    rw [hp]
    simp [hev, hhd]
  · intro ev hd hev hhd hds
    unfold Server.formatAlert
    rw [hp]
    simp [hev, hhd, hds]

/-- Witness for C5 (amended): an alert missing only its headline gets the
single "No headline" placeholder from message_processing (other fields
verbatim), the event/description rendering from config_init, and a
`KeyError: 'headline'` from server.py; the all-missing alert raises
`KeyError: 'event'` there. -/
theorem missing_fields_placeholders_witness :
    MessageProcessing.format_alert_message alertNoHeadline =
      "🚨Weather Alert🚨\nHeadline: No headline\nDescription: Seek shelter now\nInstruction: Take shelter"
    ∧ ConfigInit.alertMessage alertNoHeadline
      = "Weather Alert: Tornado Warning - Seek shelter now"
    ∧ Server.formatAlert alertNoHeadline = Except.error (PyErr.keyError "headline")
    ∧ Server.formatAlert alertEmpty = Except.error (PyErr.keyError "event") :=
  ⟨(missing_fields_placeholders alertNoHeadline
      ⟨some "Tornado Warning", Option.none, some "Seek shelter now", some "Take shelter"⟩
      rfl).1,
   (missing_fields_placeholders alertNoHeadline
      ⟨some "Tornado Warning", Option.none, some "Seek shelter now", some "Take shelter"⟩
      rfl).2.1,
   (missing_fields_placeholders alertNoHeadline
      ⟨some "Tornado Warning", Option.none, some "Seek shelter now", some "Take shelter"⟩
      rfl).2.2.2.1 "Tornado Warning" rfl rfl,
   (missing_fields_placeholders alertEmpty
      ⟨Option.none, Option.none, Option.none, Option.none⟩ rfl).2.2.1 rfl⟩

set_option maxRecDepth 8192 in
/-- Counterexample for C6: in the spec's end-to-end scenario, `server.py`
broadcasts a message that does not contain the instruction ("Take
shelter") anywhere, so the formatted message does not contain all four
fields; the send does happen exactly once with the broadcast address. -/
theorem scenario_counterexample :
    Server.cycle envScenario 0 =
      ([Ev.log "Broadcasting message: ⚠️ Weather Alert: Tornado Warning\nTornado Warning issued\nSeek shelter now",
        Ev.sendText "⚠️ Weather Alert: Tornado Warning\nTornado Warning issued\nSeek shelter now"
          (some BROADCAST_NUM)], Option.none)
    ∧ ¬ List.IsInfix "Take shelter".toList
        "⚠️ Weather Alert: Tornado Warning\nTornado Warning issued\nSeek shelter now".toList := by
  refine ⟨rfl, by decide⟩

/-- Claim C6 (amended): in the end-to-end scenario each variant sends its
formatted message exactly once per alert, but none embeds all four
fields: `message_processing` sends headline/description/instruction (no
event slot) to BROADCAST_NUM; `server.py` sends
event/headline/description (no instruction) to BROADCAST_NUM;
`config_init` sends event and description only, with no explicit
destination argument. -/
theorem scenario_per_variant :
    MessageProcessing.broadcast_weather_alerts envScenario 0 =
      ([Ev.sendText "🚨Weather Alert🚨\nHeadline: Tornado Warning issued\nDescription: Seek shelter now\nInstruction: Take shelter"
          (some BROADCAST_NUM)], Option.none)
    ∧ Server.sendLoop envScenario 0 0 [alertFull] =
      ([Ev.log "Broadcasting message: ⚠️ Weather Alert: Tornado Warning\nTornado Warning issued\nSeek shelter now",
        Ev.sendText "⚠️ Weather Alert: Tornado Warning\nTornado Warning issued\nSeek shelter now"
          (some BROADCAST_NUM)], Option.none)
    ∧ ConfigInit.broadcast_weather_alerts (some [alertFull]) =
      [Ev.sendText "Weather Alert: Tornado Warning - Seek shelter now" Option.none,
       Ev.printEv "Broadcasting: Weather Alert: Tornado Warning - Seek shelter now"] := by
  refine ⟨rfl, rfl, rfl⟩

/-- One-step unfolding of message_processing's main loop. -/
theorem mp_mainAux_succ (env : Env) (interval fuel k : Nat) :
    MessageProcessing.mainAux env interval (fuel + 1) k =
      (match (MessageProcessing.broadcast_weather_alerts env k).2 with
       | some e =>
         ((MessageProcessing.broadcast_weather_alerts env k).1 ++
            Ev.log ("Error in main loop: " ++ e) ::
            (MessageProcessing.mainAux env interval fuel (k + 1)).1,
          (MessageProcessing.mainAux env interval fuel (k + 1)).2)
       | Option.none =>
         if env.kbAt == some k then
           ((MessageProcessing.broadcast_weather_alerts env k).1 ++ [Ev.sleepEv interval], true)
         else
           ((MessageProcessing.broadcast_weather_alerts env k).1 ++
              Ev.sleepEv interval :: (MessageProcessing.mainAux env interval fuel (k + 1)).1,
            (MessageProcessing.mainAux env interval fuel (k + 1)).2)) := rfl

/-- One-step unfolding of server.py's main loop. -/
theorem server_loopAux_succ (env : Env) (fuel k : Nat) :
    Server.loopAux env (fuel + 1) k =
      (match (Server.cycle env k).2 with
       | some e => ((Server.cycle env k).1, some (Server.SExit.exc e))
       | Option.none =>
         if env.kbAt == some k then
           ((Server.cycle env k).1 ++ [Ev.sleepEv 600], some Server.SExit.kb)
         else
           ((Server.cycle env k).1 ++ Ev.sleepEv 600 :: (Server.loopAux env fuel (k + 1)).1,
            (Server.loopAux env fuel (k + 1)).2)) := rfl

/-- Counterexample for C1: in `server.py`'s loop a per-cycle feed error
(HTTP 500 on cycle 0) is caught outside the while, the interface is
closed, and the loop terminates: no sleep happens and no further cycle
runs even though fuel for three cycles remains, so the process does
terminate because of a per-cycle feed error. -/
theorem cycle_error_ends_server_loop :
    Server.mainLoop envFeed500 3
      = ([Ev.log "An error occurred: HTTPError: 500", Ev.closeEv], true) := by
  rfl

/-- Claim C1 (amended): in `message_processing.main` every cycle exception
is caught inside the loop, logged, and the loop continues directly with
the next cycle — the sleep step is skipped on a failing cycle (a
broadcast call emits no sleep event) and the loop does not terminate; in
`server.py`'s main the first cycle exception ends the loop: the handler
outside the while receives it, logs it, closes the interface, and the
loop terminates. -/
theorem cycle_error_isolation :
    (∀ (env : Env) (interval fuel k : Nat) (evs : List Ev) (e : String),
       MessageProcessing.broadcast_weather_alerts env k = (evs, some e) →
       MessageProcessing.mainAux env interval (fuel + 1) k =
         (evs ++ Ev.log ("Error in main loop: " ++ e) ::
            (MessageProcessing.mainAux env interval fuel (k + 1)).1,
          (MessageProcessing.mainAux env interval fuel (k + 1)).2))
    ∧ (∀ (env : Env) (k n : Nat),
       Ev.sleepEv n ∉ (MessageProcessing.broadcast_weather_alerts env k).1)
    ∧ (∀ (env : Env) (fuel k : Nat) (evs : List Ev) (e : String),
       Server.cycle env k = (evs, some e) →
       Server.loopAux env (fuel + 1) k = (evs, some (Server.SExit.exc e)))
    ∧ (∀ (env : Env) (fuel : Nat) (t : List Ev) (e : String),
       Server.loopAux env fuel 0 = (t, some (Server.SExit.exc e)) →
       Server.mainLoop env fuel =
         (t ++ [Ev.log ("An error occurred: " ++ e), Ev.closeEv], true)) := by
  refine ⟨?_, ?_, ?_, ?_⟩
  · intro env interval fuel k evs e h
    rw [mp_mainAux_succ, h]
  · intro env k n h
    rcases mp_broadcast_events env k _ h with ⟨m, hm⟩ | ⟨m, d, hm⟩ <;> exact Ev.noConfusion hm
  · intro env fuel k evs e h
    rw [server_loopAux_succ, h]
  · intro env fuel t e h
    unfold Server.mainLoop
    rw [h]

/-- Witness for C1 (amended): a failing cycle in message_processing logs
and continues without sleeping; a failing server cycle ends the loop. -/
theorem cycle_error_isolation_witness :
    MessageProcessing.mainAux envNetDown 300 2 0 =
      ([] ++ Ev.log "Error in main loop: ConnectionError" ::
         (MessageProcessing.mainAux envNetDown 300 1 1).1,
       (MessageProcessing.mainAux envNetDown 300 1 1).2)
    ∧ Ev.sleepEv 300 ∉ (MessageProcessing.broadcast_weather_alerts envNetDown 0).1
    ∧ Server.loopAux envFeed500 1 0 = ([], some (Server.SExit.exc "HTTPError: 500")) :=
  ⟨cycle_error_isolation.1 envNetDown 300 1 0 [] "ConnectionError" rfl,
   cycle_error_isolation.2.1 envNetDown 0 300,
   cycle_error_isolation.2.2.1 envFeed500 0 0 [] "HTTPError: 500" rfl⟩

/-- Counterexample for C7: `server.py`'s loop also terminates on an
ordinary feed error (HTTP 404 on cycle 0) — no interrupt arrives
(`kbAt = none`) and no transport send ever fails in this environment —
so the loop does not terminate only on interrupts or fatal transport
failures. -/
theorem feed_error_terminates :
    Server.mainLoop envFeed404 5
      = ([Ev.log "An error occurred: HTTPError: 404", Ev.closeEv], true)
    ∧ envFeed404.kbAt = Option.none
    ∧ envFeed404.sendFail 0 0 = Option.none := by
  refine ⟨rfl, rfl, rfl⟩

/-- `server.main` when the loop is still running at fuel exhaustion. -/
theorem server_mainLoop_none (env : Env) (fuel : Nat) (t : List Ev)
    (h : Server.loopAux env fuel 0 = (t, Option.none)) :
    Server.mainLoop env fuel = (t, false) := by
  unfold Server.mainLoop
  rw [h]

/-- `server.main` on a KeyboardInterrupt exit of the loop. -/
theorem server_mainLoop_kb (env : Env) (fuel : Nat) (t : List Ev)
    (h : Server.loopAux env fuel 0 = (t, some Server.SExit.kb)) :
    Server.mainLoop env fuel =
      (t ++ [Ev.log "Shutting down the Weather Alerts system...", Ev.closeEv], true) := by
  unfold Server.mainLoop
  rw [h]

/-- `server.main` on an exception exit of the loop. -/
theorem server_mainLoop_exc (env : Env) (fuel : Nat) (t : List Ev) (e : String)
    (h : Server.loopAux env fuel 0 = (t, some (Server.SExit.exc e))) :
    Server.mainLoop env fuel =
      (t ++ [Ev.log ("An error occurred: " ++ e), Ev.closeEv], true) := by
  unfold Server.mainLoop
  rw [h]

/-- Claim C7 (amended): whenever `server.py`'s loop terminates — on a
KeyboardInterrupt during the sleep or on ANY exception raised in a cycle,
not only fatal transport failures — `close()` is invoked exactly once;
while it is still looping `close()` has not been invoked; an exception
exit always stems from some cycle raising that exception; and
`message_processing.main` never invokes `close()` at all. -/
theorem close_on_termination :
    (∀ (env : Env) (fuel : Nat), (Server.mainLoop env fuel).2 = true →
       ((Server.mainLoop env fuel).1.count Ev.closeEv) = 1)
    ∧ (∀ (env : Env) (fuel : Nat), (Server.mainLoop env fuel).2 = false →
       ((Server.mainLoop env fuel).1.count Ev.closeEv) = 0)
    ∧ (∀ (env : Env) (fuel : Nat) (t : List Ev),
       Server.loopAux env fuel 0 = (t, some Server.SExit.kb) →
       Server.mainLoop env fuel =
         (t ++ [Ev.log "Shutting down the Weather Alerts system...", Ev.closeEv], true))
    ∧ (∀ (env : Env) (fuel : Nat) (t : List Ev) (e : String),
       Server.loopAux env fuel 0 = (t, some (Server.SExit.exc e)) →
       ∃ k evs, Server.cycle env k = (evs, some e))
    ∧ (∀ (env : Env) (interval fuel k : Nat),
       Ev.closeEv ∉ (MessageProcessing.mainAux env interval fuel k).1) := by
  refine ⟨?_, ?_, ?_, ?_, ?_⟩
  · intro env fuel hterm
    have hnc : Ev.closeEv ∉ (Server.loopAux env fuel 0).1 := server_loopAux_no_close env fuel 0
    rcases h0 : Server.loopAux env fuel 0 with ⟨t, r⟩
    have hct : List.count Ev.closeEv t = 0 := by
      rw [h0] at hnc
      exact List.count_eq_zero.mpr hnc
    cases r with
    | none => rw [server_mainLoop_none env fuel t h0] at hterm; simp at hterm
    | some x =>
      cases x with
      | kb =>
        rw [server_mainLoop_kb env fuel t h0]
        simp [List.count_append, List.count_cons, beq_iff_eq, hct]
      | exc e =>
        rw [server_mainLoop_exc env fuel t e h0]
        simp [List.count_append, List.count_cons, beq_iff_eq, hct]
  · intro env fuel hterm
    have hnc : Ev.closeEv ∉ (Server.loopAux env fuel 0).1 := server_loopAux_no_close env fuel 0
    rcases h0 : Server.loopAux env fuel 0 with ⟨t, r⟩
    have hct : List.count Ev.closeEv t = 0 := by
      rw [h0] at hnc
      exact List.count_eq_zero.mpr hnc
    cases r with
    | none => rw [server_mainLoop_none env fuel t h0]; simpa using hct
    | some x =>
      cases x with
      | kb => rw [server_mainLoop_kb env fuel t h0] at hterm; simp at hterm
      | exc e => rw [server_mainLoop_exc env fuel t e h0] at hterm; simp at hterm
  · intro env fuel t h
    unfold Server.mainLoop
    rw [h]
  · intro env fuel
    have main : ∀ k t e, Server.loopAux env fuel k = (t, some (Server.SExit.exc e)) →
        ∃ k' evs, Server.cycle env k' = (evs, some e) := by
      induction fuel with
      | zero => intro k t e h; simp [Server.loopAux] at h
      | succ n ih =>
        intro k t e h
        rw [server_loopAux_succ] at h
        cases hc : (Server.cycle env k).2 with
        | some e' =>
          rw [hc] at h
          simp at h
          exact ⟨k, (Server.cycle env k).1, by rw [← h.2]; exact Prod.ext rfl hc⟩
        | none =>
          rw [hc] at h
          by_cases hkb : (env.kbAt == some k) = true
          · simp [hkb] at h
          · simp only [Bool.not_eq_true] at hkb
            simp only [hkb] at h
            simp at h
            exact ih (k + 1) (Server.loopAux env n (k + 1)).1 e (Prod.ext rfl h.2)
    intro t e h
    exact main 0 t e h
  · exact fun env interval fuel k => mp_mainAux_no_close env interval fuel k

/-- Witness for C7 (amended): close counts on terminated and still-running
concrete runs, the interrupt exit path, and the exception-origin fact at
a concrete environment. -/
theorem close_on_termination_witness :
    ((Server.mainLoop envFeed404 5).1.count Ev.closeEv) = 1
    ∧ ((Server.mainLoop envScenario 1).1.count Ev.closeEv) = 0
    ∧ Server.mainLoop envKb 2 =
      ([Ev.log "No active alerts at the moment.", Ev.sleepEv 600] ++
        [Ev.log "Shutting down the Weather Alerts system...", Ev.closeEv], true)
    ∧ (∃ k evs, Server.cycle envFeed404 k = (evs, some "HTTPError: 404"))
    ∧ Ev.closeEv ∉ (MessageProcessing.mainAux envNetDown 300 2 0).1 :=
  ⟨close_on_termination.1 envFeed404 5 rfl,
   close_on_termination.2.1 envScenario 1 rfl,
   close_on_termination.2.2.1 envKb 2
     [Ev.log "No active alerts at the moment.", Ev.sleepEv 600] rfl,
   close_on_termination.2.2.2.1 envFeed404 5 [] "HTTPError: 404" rfl,
   close_on_termination.2.2.2.2 envNetDown 300 2 0⟩

end MeshtasticWeather
